import Mathlib

/-!
Verification of the vulnerability-alert pipeline (`kevvy/cogs/cve_lookup.py`).

The Python source is shallowly embedded below: pure helpers become Lean
functions, the SQLite-backed policy store becomes an explicit `DBState`
threaded through the configuration commands, the message pipeline
(`on_message`) becomes a function from an environment (policy store plus
the two upstream clients, given as outcome functions) and a message to the
updated statistics counters plus the ordered trace of externally visible
emissions (embed sends, rate-limit sleeps, truncation notices).  Python
exceptions raised by the upstream clients are represented by explicit
`raised` outcomes, and the `try/except` structure of the source is mirrored
by how those outcomes are dispatched.  Numeric CVSS scores are rationals.
-/

/-! ### Severity gate

Source: the threshold table built in `on_message` (lines 1186-1193) and the
severity check applied after a successful fetch (lines 1217-1230).
-/

/-- The numeric severity floor for a stored threshold label, as built by the
Python dict `{critical: 9.0, high: 7.0, medium: 4.0, low: 0.1, all: 0.0}`
with `.get(label, 0.0)` defaulting unknown labels to `0.0`. -/
def min_score_threshold (label : String) : ℚ :=
  if label = "critical" then 9
  else if label = "high" then 7
  else if label = "medium" then 4
  else if label = "low" then mkRat 1 10
  else if label = "all" then 0
  else 0

/-- The severity gate applied to a fetched record inside `on_message`
(lines 1217-1230): a numeric score is kept iff it is not below the floor;
a missing (non-numeric) score is kept only when the stored label is
literally `"all"`. -/
def severity_gate (score : Option ℚ) (label : String) : Bool :=
  match score with
  | some s => !(s < min_score_threshold label)
  | none => label = "all"

/-! ### Identifier scanner

Source: `CVE_SCAN_REGEX = CVE-\d{4}-\d{4,}` (case-insensitive, unanchored,
line 22), `CVE_VALIDATE_REGEX = ^CVE-\d{4}-\d{4,}$` (case-insensitive,
line 20), the `findall`/set/cap logic of `on_message` (lines 1173-1176) and
the per-identifier validation (line 1201).  The regex class `\d` is modelled
by `Char.isDigit`.  Python `re.findall` returns the non-overlapping,
leftmost, greedy matches; `set` deduplication order is unspecified in
Python, and the embedding fixes first-occurrence order.
-/

/-- Attempt to match `CVE-\d{4}-\d{4,}` (case-insensitively, greedily) at
the head of the character list, returning the length of the match. -/
def matchAt (cs : List Char) : Option Nat :=
  match cs with
  | c :: v :: e :: d1 :: y1 :: y2 :: y3 :: y4 :: d2 :: rest =>
    if c.toUpper = 'C' && v.toUpper = 'V' && e.toUpper = 'E' && d1 = '-' &&
        y1.isDigit && y2.isDigit && y3.isDigit && y4.isDigit && d2 = '-' then
      if 4 ≤ (rest.takeWhile Char.isDigit).length then
        some (9 + (rest.takeWhile Char.isDigit).length)
      else none
    else none
  | _ => none

/-- `re.findall(CVE_SCAN_REGEX, text)`: collect the non-overlapping,
leftmost, greedy matches, resuming after each match.  Recursion is fuelled
(each step consumes at least one character, so the input length is enough
fuel). -/
def scanAuxF : Nat → List Char → List (List Char)
  | 0, _ => []
  | _, [] => []
  | fuel + 1, c :: rest =>
    match matchAt (c :: rest) with
    | some n => (c :: rest).take n :: scanAuxF fuel ((c :: rest).drop (max n 1))
    | none => scanAuxF fuel rest

/-- The full scan of a character list. -/
def scanAux (cs : List Char) : List (List Char) := scanAuxF cs.length cs

/-- `CVE_VALIDATE_REGEX.match(s)`: the anchored validation regex
`^CVE-\d{4}-\d{4,}$`, case-insensitive, on a character list. -/
def validate_chars (cs : List Char) : Bool :=
  match cs with
  | c :: v :: e :: d1 :: y1 :: y2 :: y3 :: y4 :: d2 :: rest =>
    c.toUpper = 'C' && v.toUpper = 'V' && e.toUpper = 'E' && d1 = '-' &&
    y1.isDigit && y2.isDigit && y3.isDigit && y4.isDigit && d2 = '-' &&
    decide (4 ≤ rest.length) && rest.all Char.isDigit
  | _ => false

/-- `CVE_VALIDATE_REGEX.match` on a `String`. -/
def validateCVE (s : String) : Bool :=
  validate_chars s.toList

/-- Deduplication keeping the first occurrence of each element (one fixed
realization of the unordered Python `set`), fuelled by the input length. -/
def dedupFirstF : Nat → List String → List String
  | 0, _ => []
  | _, [] => []
  | fuel + 1, x :: xs => x :: dedupFirstF fuel (xs.filter (fun y => y ≠ x))

/-- Deduplication keeping first occurrences. -/
def dedupFirst (l : List String) : List String := dedupFirstF l.length l

/-- `MAX_CVES_PER_MESSAGE` (line 23). -/
def MAX_CVES_PER_MESSAGE : Nat := 5

/-- `found_cves_set` in `on_message` (lines 1173-1175): the distinct
upper-cased scan matches. -/
def found_cves (content : String) : List String :=
  dedupFirst ((scanAux content.toList).map (fun m => String.mk (m.map Char.toUpper)))

/-- `cves_to_process` in `on_message` (line 1176): the distinct matches
truncated to the cap. -/
def cves_to_process (content : String) : List String :=
  (found_cves content).take MAX_CVES_PER_MESSAGE

/-! ### Policy store

The cog reads and writes configuration through `self.db` (`KEVConfigDB`,
whose implementation lives outside this file tree).  The rows it
manipulates are embedded as explicit data, and the narrow store interface
is modelled from the specification where its code is missing.
-/

/-- A `GuildPolicy` row: the fields of the per-guild CVE config consulted
by the cog (`cve_monitoring_enabled`, `verbose_mode`,
`cve_severity_threshold`). -/
structure GuildConfig where
  cve_monitoring_enabled : Bool
  verbose_mode : Bool
  cve_severity_threshold : String
deriving DecidableEq

/-- A `ChannelPolicy` row: per-channel enablement, tri-state verbosity
override, and the (currently unused) per-channel threshold and format. -/
structure ChannelConfig where
  channel_id : Nat
  enabled : Bool
  verbose_mode : Option Bool
  severity_threshold : Option String
  alert_format : Option String
deriving DecidableEq

/-- The persisted policy store: guild rows keyed by guild id and channel
rows keyed by (guild id, `channel_id`). -/
structure DBState where
  guild_configs : List (Nat × GuildConfig)
  channel_configs : List (Nat × ChannelConfig)
deriving DecidableEq

/-- Modelled from the spec: `getGuildPolicy(groupId) -> GuildPolicy | absent`
(`db.get_cve_guild_config`, whose implementation is not under `src/`). -/
def get_cve_guild_config (g : Nat) (db : DBState) : Option GuildConfig :=
  (db.guild_configs.find? (fun p => p.1 = g)).map (fun p => p.2)

/-- Modelled from the spec: `setGuildPolicy` (`db.set_cve_guild_config`) as
an upsert of the full guild row. -/
def set_cve_guild_config (g : Nat) (enabled verbose : Bool) (thr : String)
    (db : DBState) : DBState :=
  if (db.guild_configs.find? (fun p => p.1 = g)).isSome then
    { db with guild_configs := db.guild_configs.map (fun p =>
        if p.1 = g then (p.1, ⟨enabled, verbose, thr⟩) else p) }
  else
    { db with guild_configs := db.guild_configs ++ [(g, ⟨enabled, verbose, thr⟩)] }

/-- Modelled from the spec: `setGuildEnabled(groupId, bool)`
(`db.update_cve_guild_enabled`), a plain setter updating the existing row
(the spec assigns first-touch materialization to the write-path operation,
not to the store setter). -/
def update_cve_guild_enabled (g : Nat) (b : Bool) (db : DBState) : DBState :=
  { db with guild_configs := db.guild_configs.map (fun p =>
      if p.1 = g then (p.1, { p.2 with cve_monitoring_enabled := b }) else p) }

/-- Modelled from the spec: `setGuildVerbose(groupId, bool)`
(`db.update_cve_guild_verbose_mode`), a plain setter on the existing row. -/
def update_cve_guild_verbose_mode (g : Nat) (b : Bool) (db : DBState) : DBState :=
  { db with guild_configs := db.guild_configs.map (fun p =>
      if p.1 = g then (p.1, { p.2 with verbose_mode := b }) else p) }

/-- Modelled from the spec: `setGuildSeverityFloor(groupId, label)`
(`db.update_cve_guild_severity_threshold`), a plain setter on the existing
row. -/
def update_cve_guild_severity_threshold (g : Nat) (lvl : String)
    (db : DBState) : DBState :=
  { db with guild_configs := db.guild_configs.map (fun p =>
      if p.1 = g then (p.1, { p.2 with cve_severity_threshold := lvl }) else p) }

/-- Modelled from the spec: `listChannelPolicies(groupId)`
(`db.get_all_cve_channel_configs_for_guild`). -/
def get_all_cve_channel_configs_for_guild (g : Nat) (db : DBState) :
    List ChannelConfig :=
  db.channel_configs.filterMap (fun p => if p.1 = g then some p.2 else none)

/-- Modelled from the spec: `getChannelPolicy(groupId, destId)`
(`db.get_cve_channel_config`). -/
def get_cve_channel_config (g chan : Nat) (db : DBState) : Option ChannelConfig :=
  (db.channel_configs.find? (fun p => p.1 = g && p.2.channel_id = chan)).map
    (fun p => p.2)

/-- Modelled from the spec: `upsertChannelPolicy`
(`db.add_or_update_cve_channel`); a `none` optional parameter means that
field of an existing row is left unchanged (cf. the call-site comments
"Do not change verbosity here" at lines 536-538). -/
def add_or_update_cve_channel (g chan : Nat) (enabled : Bool)
    (verbose : Option Bool) (thr fmt : Option String) (db : DBState) : DBState :=
  if (db.channel_configs.find? (fun p => p.1 = g && p.2.channel_id = chan)).isSome then
    { db with channel_configs := db.channel_configs.map (fun p =>
        if p.1 = g && p.2.channel_id = chan then
          (p.1, { p.2 with
                  enabled := enabled,
                  verbose_mode := match verbose with
                    | some v => some v
                    | none => p.2.verbose_mode,
                  severity_threshold := match thr with
                    | some t => some t
                    | none => p.2.severity_threshold,
                  alert_format := match fmt with
                    | some f => some f
                    | none => p.2.alert_format })
        else p) }
  else
    { db with channel_configs :=
        db.channel_configs ++ [(g, ⟨chan, enabled, verbose, thr, fmt⟩)] }

/-- Modelled from the spec: `setChannelVerbosityOverride(groupId, destId,
true|false|inherit)` (`db.set_channel_verbosity`); per §3 a channel row is
created on first destination-specific write (with the destination enabled). -/
def set_channel_verbosity (g chan : Nat) (v : Option Bool) (db : DBState) : DBState :=
  if (db.channel_configs.find? (fun p => p.1 = g && p.2.channel_id = chan)).isSome then
    { db with channel_configs := db.channel_configs.map (fun p =>
        if p.1 = g && p.2.channel_id = chan then
          (p.1, { p.2 with verbose_mode := v })
        else p) }
  else
    { db with channel_configs := db.channel_configs ++ [(g, ⟨chan, true, v, none, none⟩)] }

/-- Modelled from the spec: `setAllChannelVerbosity(groupId, value)`
(`db.set_all_channel_verbosity`), updating every configured channel row of
the group. -/
def set_all_channel_verbosity (g : Nat) (v : Bool) (db : DBState) : DBState :=
  { db with channel_configs := db.channel_configs.map (fun p =>
      if p.1 = g then (p.1, { p.2 with verbose_mode := some v }) else p) }

/-- Modelled from the spec (§4.2 step 4): `db.get_effective_verbosity` —
the destination override when present and non-null, else the guild default
verbosity (false when no guild row exists). -/
def get_effective_verbosity (db : DBState) (g chan : Nat) : Bool :=
  match (get_cve_channel_config g chan db).bind (fun c => c.verbose_mode) with
  | some v => v
  | none =>
    match get_cve_guild_config g db with
    | some gc => gc.verbose_mode
    | none => false

/-! ### Configuration commands

The slash-command handlers, reduced to their effect on the policy store
(their user-facing acknowledgement messages and permission checks carry no
policy state and are elided).
-/

/-- `_ensure_guild_config` (lines 478-494): create the default guild row
(enabled, non-verbose, threshold "all") when none exists. -/
def ensure_guild_config (g : Nat) (db : DBState) : DBState :=
  match get_cve_guild_config g db with
  | some _ => db
  | none => set_cve_guild_config g true false "all" db

/-- `channels_add_command` (lines 502-556): ensure the guild row, enable
global monitoring if it was off, then upsert the channel row as enabled
without touching its verbosity/threshold/format. -/
def channels_add_command (g chan : Nat) (db : DBState) : DBState :=
  let db1 := ensure_guild_config g db
  let db2 :=
    match get_cve_guild_config g db1 with
    | some cfg =>
      if cfg.cve_monitoring_enabled then db1 else update_cve_guild_enabled g true db1
    | none => db1
  add_or_update_cve_channel g chan true none none none db2

/-- `channels_remove_command` (lines 564-608): delete the channel row. -/
def channels_remove_command (g chan : Nat) (db : DBState) : DBState :=
  { db with channel_configs := db.channel_configs.filter (fun p =>
      !(p.1 = g && p.2.channel_id = chan)) }

/-- `channels_enable_global_command` (lines 736-769): ensure the guild row,
then set global monitoring on. -/
def channels_enable_global_command (g : Nat) (db : DBState) : DBState :=
  update_cve_guild_enabled g true (ensure_guild_config g db)

/-- `channels_disable_global_command` (lines 696-729): ensure the guild
row, then set global monitoring off. -/
def channels_disable_global_command (g : Nat) (db : DBState) : DBState :=
  update_cve_guild_enabled g false (ensure_guild_config g db)

/-- `threshold_set_command` (lines 1033-1068): ensure the guild row, then
set the global severity threshold. -/
def threshold_set_command (g : Nat) (lvl : String) (db : DBState) : DBState :=
  update_cve_guild_severity_threshold g lvl (ensure_guild_config g db)

/-- `threshold_reset_command` (lines 1098-1131): ensure the guild row, then
reset the global severity threshold to "all". -/
def threshold_reset_command (g : Nat) (db : DBState) : DBState :=
  update_cve_guild_severity_threshold g "all" (ensure_guild_config g db)

/-- `verbose_enable_global_command` (lines 778-798): sets the guild
verbosity directly — the source does NOT call `_ensure_guild_config`
first. -/
def verbose_enable_global_command (g : Nat) (db : DBState) : DBState :=
  update_cve_guild_verbose_mode g true db

/-- `verbose_disable_global_command` (lines 805-825): sets the guild
verbosity directly, without ensuring the guild row. -/
def verbose_disable_global_command (g : Nat) (db : DBState) : DBState :=
  update_cve_guild_verbose_mode g false db

/-- `verbose_channel_set_command` (lines 835-871): inline first-touch
creation of the guild row (lines 847-856), then set the channel override. -/
def verbose_channel_set_command (g chan : Nat) (v : Bool) (db : DBState) : DBState :=
  let db1 :=
    match get_cve_guild_config g db with
    | some _ => db
    | none => set_cve_guild_config g true false "all" db
  set_channel_verbosity g chan (some v) db1

/-- `verbose_channel_unset_command` (lines 879-901): clear the channel
override, without ensuring the guild row. -/
def verbose_channel_unset_command (g chan : Nat) (db : DBState) : DBState :=
  set_channel_verbosity g chan none db

/-- `verbose_channel_setall_command` (lines 911-934): set the override on
all configured channels directly — the source does NOT call
`_ensure_guild_config` first. -/
def verbose_channel_setall_command (g : Nat) (v : Bool) (db : DBState) : DBState :=
  set_all_channel_verbosity g v db

/-! ### Message pipeline (`on_message`, lines 1134-1289)

The Discord message event, the two upstream clients and the emission side
effects are embedded explicitly.  Upstream calls are given as outcome
functions: `raised` stands for a Python exception escaping the call, which
the source catches (outer `try` per identifier for the primary fetch,
inner `try` for the exploitation-catalog lookup).  Discord sends are
modelled as always succeeding trace events; the counters carry the
source field names of `SecurityBot` stats.
-/

/-- The `StatsCounters` fields touched by the pipeline
(`stats_cve_lookups`, `stats_nvd_fallback_success`, `stats_api_errors_nvd`),
each incremented under `bot.stats_lock`. -/
structure Counters where
  stats_cve_lookups : Nat
  stats_nvd_fallback_success : Nat
  stats_api_errors_nvd : Nat
deriving DecidableEq

/-- The fields of a fetched CVE record consulted by the pipeline control
flow; `cvss := none` models a record whose score is absent or non-numeric
(the `isinstance` check at line 1219).  Rendering-only fields of the Python
dict (description, link, references, ...) are carried opaquely by the
emitted event and elided here. -/
structure CveDetails where
  cvss : Option ℚ
deriving DecidableEq

/-- An `ExploitationRecord` (KEV catalog entry); all of its fields are
rendering-only for the pipeline. -/
structure KevEntry where
  vulnerabilityName : Option String
  vendorProject : Option String
  product : Option String
  dueDate : Option String
  shortDescription : Option String
  knownRansomwareCampaignUse : Option String
deriving DecidableEq

/-- Outcome of `nvd_client.get_cve_details(cve_id)` (line 1211):
a record, a `None` result, or an exception escaping the call. -/
inductive FetchOutcome where
  | found (details : CveDetails)
  | notFound
  | raised
deriving DecidableEq

/-- Outcome of `cisa_kev_client.get_kev_entry(cve_id)` (line 1237). -/
inductive KevOutcome where
  | entry (k : KevEntry)
  | notFound
  | raised
deriving DecidableEq

/-- Externally visible emissions of the pipeline, in order: embed sends to
the channel, `asyncio.sleep` rate-limit delays (in seconds), and the
truncation notice (lines 1278-1285) carrying the distinct found count and
the cap. -/
inductive Event where
  | sendCveEmbed (cve_id : String) (details : CveDetails) (verbose : Bool)
  | sendKevEmbed (cve_id : String) (entry : KevEntry) (verbose : Bool)
  | sleep (seconds : ℚ)
  | sendTruncationNotice (found shown : Nat)
deriving DecidableEq

/-- The collaborators `on_message` consults: the policy store and the two
upstream clients (`cisa_kev_client` is optional, cf. line 1234). -/
structure PipelineEnv where
  db : DBState
  nvd : String → FetchOutcome
  cisa_kev_client : Option (String → KevOutcome)

/-- The fields of a Discord message event consulted by `on_message`:
author bot flag, guild (none for a DM), channel id, text content. -/
structure MessageModel where
  author_is_bot : Bool
  guild_id : Option Nat
  channel_id : Nat
  content : String

/-- The channel filtering step of `on_message` (lines 1157-1170): with no
configured rows monitoring is global; with rows, the current channel must
appear with `enabled`. -/
def channel_allowed (channel_configs : List ChannelConfig) (chan : Nat) : Bool :=
  channel_configs.isEmpty ||
    channel_configs.any (fun conf => conf.channel_id = chan && conf.enabled)

/-- The per-identifier body of the `on_message` loop (lines 1200-1276),
returning the updated counters and the events this identifier emits.
The outer `try` catches an exception from the primary fetch and increments
the NVD error counter (lines 1270-1276); the inner `try` around the KEV
lookup only logs, leaving the identifier flagged not-exploited
(lines 1244-1248). -/
def process_message_cve (env : PipelineEnv) (chan g : Nat)
    (threshold_label : String) (st : Counters) (cve_id : String) :
    Counters × List Event :=
  if !validateCVE cve_id then (st, [])
  else
    let st1 := { st with stats_cve_lookups := st.stats_cve_lookups + 1 }
    match env.nvd cve_id with
    | .raised =>
      ({ st1 with stats_api_errors_nvd := st1.stats_api_errors_nvd + 1 }, [])
    | .notFound => (st1, [])
    | .found details =>
      let st2 := { st1 with
        stats_nvd_fallback_success := st1.stats_nvd_fallback_success + 1 }
      if !severity_gate details.cvss threshold_label then (st2, [])
      else
        let kev_entry_data : Option KevEntry :=
          match env.cisa_kev_client with
          | none => none
          | some kev_fetch =>
            match kev_fetch cve_id with
            | .entry k => some k
            | .notFound => none
            | .raised => none
        let verbose := get_effective_verbosity env.db g chan
        let evs := [Event.sendCveEmbed cve_id details verbose,
                    Event.sleep (mkRat 3 2)]
        match kev_entry_data with
        | some k =>
          (st2, evs ++ [Event.sendKevEmbed cve_id k verbose, Event.sleep (mkRat 3 2)])
        | none => (st2, evs)

/-- The `for cve_id in cves_to_process` loop (lines 1200-1276), threading
the counters and concatenating each identifier's emissions. -/
def run_batch (env : PipelineEnv) (chan g : Nat) (threshold_label : String)
    (init : Counters × List Event) (ids : List String) : Counters × List Event :=
  ids.foldl (fun acc cve_id =>
    let r := process_message_cve env chan g threshold_label acc.1 cve_id
    (r.1, acc.2 ++ r.2)) init

/-- `on_message` (lines 1134-1289): guard rejections (bot author, DM,
empty content, disabled guild, channel not allowed, nothing scanned) are
silent no-ops; otherwise the capped batch is processed and a single
truncation notice is appended when the distinct count exceeded the cap.
The availability guard for `self.db`/`self.nvd_client` (lines 1141-1147)
is a silent no-op as well and is represented by the collaborators always
being present in `PipelineEnv`. -/
def on_message (env : PipelineEnv) (msg : MessageModel) (st : Counters) :
    Counters × List Event :=
  if msg.author_is_bot then (st, [])
  else
    match msg.guild_id with
    | none => (st, [])
    | some g =>
      if msg.content = "" then (st, [])
      else
        match get_cve_guild_config g env.db with
        | none => (st, [])
        | some guild_config =>
          if !guild_config.cve_monitoring_enabled then (st, [])
          else
            let channel_configs := get_all_cve_channel_configs_for_guild g env.db
            if !channel_allowed channel_configs msg.channel_id then (st, [])
            else
              let found := found_cves msg.content
              let ids := found.take MAX_CVES_PER_MESSAGE
              if ids.isEmpty then (st, [])
              else
                let threshold_label := guild_config.cve_severity_threshold
                let r := run_batch env msg.channel_id g threshold_label (st, []) ids
                if MAX_CVES_PER_MESSAGE < found.length then
                  (r.1, r.2 ++ [Event.sendTruncationNotice found.length
                    MAX_CVES_PER_MESSAGE])
                else r

/-! ### Query sort (`cve_latest_command`, lines 379-402)

`get_sort_key` parses the `published` field with
`datetime.datetime.fromisoformat` after `replace("Z", "+00:00")`; a missing
field falls back to the naive default string `1970-01-01T00:00:00.000`, and
a parse failure falls back to the timezone-aware
`datetime(1970, 1, 1, tzinfo=utc)`.  Python datetimes are embedded as an
awareness flag plus an integer instant in microseconds built on the
proleptic Gregorian ordinal day (`date.toordinal` semantics): a naive
datetime compares by its fields and an aware datetime by its UTC instant,
and the encoding realizes both orders exactly — for aware values the
stored instant already has the UTC offset subtracted, so aware keys with
distinct offsets also compare as Python compares them.  Comparing an aware
with a naive datetime raises `TypeError` in Python, and a comparison sort
of a list holding both kinds must compare across the two classes at least
once to place them relative to each other, so `list.sort` raises on every
mixed-key list; the `except` at lines 397-399 catches it and the query
continues with whatever partially-reordered permutation the aborted sort
left behind, which CPython does not specify — the ordering step is
therefore embedded as a relation that admits every permutation of the
input in that case.  On uniform keys `list.sort(key=..., reverse=True)` is
the stable descending sort; a stable sort under a total preorder has a
unique output, so it is embedded with the stable `List.insertionSort`.
-/

/-- A Python datetime: tz-awareness plus an integer instant. -/
structure PyDateTime where
  aware : Bool
  t : ℤ
deriving DecidableEq

/-- Numeric value of a digit character. -/
def digitVal (c : Char) : Nat := c.toNat - 48

/-- Parse exactly two digits. -/
def parse2 : List Char → Option (Nat × List Char)
  | a :: b :: rest =>
    if a.isDigit && b.isDigit then some (digitVal a * 10 + digitVal b, rest)
    else none
  | _ => none

/-- Parse exactly four digits. -/
def parse4 : List Char → Option (Nat × List Char)
  | a :: b :: c :: d :: rest =>
    if a.isDigit && b.isDigit && c.isDigit && d.isDigit then
      some (((digitVal a * 10 + digitVal b) * 10 + digitVal c) * 10 + digitVal d,
        rest)
    else none
  | _ => none

/-- Expect a specific character. -/
def expectChar (ch : Char) : List Char → Option (List Char)
  | c :: rest => if c = ch then some rest else none
  | [] => none

/-- Gregorian leap years. -/
def isLeapYear (y : Nat) : Bool :=
  (y % 4 = 0 && y % 100 ≠ 0) || y % 400 = 0

/-- Days in a month, as validated by `datetime`. -/
def daysInMonth (y m : Nat) : Nat :=
  if m = 2 then (if isLeapYear y then 29 else 28)
  else if m = 4 || m = 6 || m = 9 || m = 11 then 30
  else 31

/-- Days in the proleptic Gregorian calendar before year `y`
(`date.toordinal` arithmetic). -/
def daysBeforeYear (y : Nat) : Nat :=
  365 * (y - 1) + (y - 1) / 4 - (y - 1) / 100 + (y - 1) / 400

/-- Days of year `y` before month `m`. -/
def daysBeforeMonth (y m : Nat) : Nat :=
  (List.range (m - 1)).foldl (fun acc k => acc + daysInMonth y (k + 1)) 0

/-- `date(y, m, d).toordinal()`: day 1 is 0001-01-01. -/
def toOrdinalDay (y m d : Nat) : Nat :=
  daysBeforeYear y + daysBeforeMonth y m + d

/-- Build the embedded datetime from parsed fields; `offset` (UTC offset in
minutes) present means timezone-aware.  The instant is microseconds on the
ordinal-day axis; subtracting the offset for aware values makes the order
on `t` coincide with Python's field order on naive datetimes and UTC-instant
order on aware datetimes. -/
def mk_pydatetime (y m d hh mm ss usec : Nat) (offset : Option ℤ) : PyDateTime :=
  let base : ℤ :=
    ((((toOrdinalDay y m d * 24 + hh) * 60 + mm) * 60 + ss : Nat) : ℤ)
      * 1000000 + (usec : ℤ)
  match offset with
  | none => { aware := false, t := base }
  | some o => { aware := true, t := base - o * 60000000 }

/-- Parse a trailing UTC offset `±HH:MM` (must consume the whole rest). -/
def parse_tz : List Char → Option ℤ
  | sign :: cs =>
    if sign = '+' || sign = '-' then
      match parse2 cs with
      | some (oh, cs1) =>
        match expectChar ':' cs1 with
        | some cs2 =>
          match parse2 cs2 with
          | some (om, cs3) =>
            if oh ≤ 23 && om ≤ 59 && cs3.isEmpty then
              let mins : ℤ := (oh * 60 + om : Nat)
              some (if sign = '-' then -mins else mins)
            else none
          | none => none
        | none => none
      | none => none
    else none
  | [] => none

/-- Parse `HH:MM[:SS[.ffffff]]`, returning hours, minutes, seconds,
microseconds and the remaining characters. -/
def parse_hms (cs : List Char) : Option ((Nat × Nat × Nat × Nat) × List Char) :=
  match parse2 cs with
  | none => none
  | some (hh, cs1) =>
    match expectChar ':' cs1 with
    | none => none
    | some cs2 =>
      match parse2 cs2 with
      | none => none
      | some (mm, cs3) =>
        if hh ≤ 23 && mm ≤ 59 then
          match expectChar ':' cs3 with
          | none => some ((hh, mm, 0, 0), cs3)
          | some cs4 =>
            match parse2 cs4 with
            | none => none
            | some (ss, cs5) =>
              if ss ≤ 59 then
                match cs5 with
                | '.' :: cs6 =>
                  let ds := cs6.takeWhile Char.isDigit
                  if 1 ≤ ds.length && ds.length ≤ 6 then
                    let v := ds.foldl (fun a c => a * 10 + digitVal c) 0
                    some ((hh, mm, ss, v * 10 ^ (6 - ds.length)),
                      cs6.drop ds.length)
                  else none
                | _ => some ((hh, mm, ss, 0), cs5)
              else none
        else none

/-- `datetime.datetime.fromisoformat` on the formats relevant here:
`YYYY-MM-DD[{T, space}HH:MM[:SS[.ffffff]][±HH:MM]]`, with calendar
validation; `none` models `ValueError`. -/
def fromisoformat (s : String) : Option PyDateTime :=
  match parse4 s.toList with
  | none => none
  | some (y, cs1) =>
    match expectChar '-' cs1 with
    | none => none
    | some cs2 =>
      match parse2 cs2 with
      | none => none
      | some (m, cs3) =>
        match expectChar '-' cs3 with
        | none => none
        | some cs4 =>
          match parse2 cs4 with
          | none => none
          | some (d, cs5) =>
            if 1 ≤ y && 1 ≤ m && m ≤ 12 && 1 ≤ d && d ≤ daysInMonth y m then
              match cs5 with
              | [] => some (mk_pydatetime y m d 0 0 0 0 none)
              | sep :: cs6 =>
                if sep = 'T' || sep = ' ' then
                  match parse_hms cs6 with
                  | none => none
                  | some ((hh, mm, ss, usec), cs7) =>
                    if cs7.isEmpty then
                      some (mk_pydatetime y m d hh mm ss usec none)
                    else
                      match parse_tz cs7 with
                      | some o => some (mk_pydatetime y m d hh mm ss usec (some o))
                      | none => none
                else none
            else none

/-- `str.replace("Z", "+00:00")` at character level. -/
def replaceZ : List Char → List Char
  | [] => []
  | c :: rest =>
    if c = 'Z' then '+' :: '0' :: '0' :: ':' :: '0' :: '0' :: replaceZ rest
    else c :: replaceZ rest

/-- `datetime(1970, 1, 1, tzinfo=timezone.utc)`: the aware fallback key
returned when parsing raises (lines 390-393). -/
def epoch_utc : PyDateTime := mk_pydatetime 1970 1 1 0 0 0 0 (some 0)

/-- A record handled by `/cve latest`, reduced to the field the sort step
consults (`published`; `none` models an absent key). -/
structure LatestCveEntry where
  published : Option String
deriving DecidableEq

/-- `get_sort_key` (lines 383-393): missing field defaults to the naive
epoch string; parse failure falls back to the aware epoch. -/
def get_sort_key (e : LatestCveEntry) : PyDateTime :=
  let pub_date_str := e.published.getD "1970-01-01T00:00:00.000"
  match fromisoformat (String.mk (replaceZ pub_date_str.toList)) with
  | some dt => dt
  | none => epoch_utc

/-- Whether all sort keys share tz-awareness: exactly when Python can
compare every pair without raising `TypeError`. -/
def keys_comparable (l : List LatestCveEntry) : Bool :=
  match l with
  | [] => true
  | e :: es => es.all (fun e2 => (get_sort_key e2).aware = (get_sort_key e).aware)

/-- Whether the comparisons of the ordering step raise: Python refuses to
order an aware against a naive datetime, and a comparison sort of a list
holding both kinds must compare across the two classes at least once to
place them, so a `TypeError` escapes `list.sort` exactly when the keys mix
awareness. -/
def sort_key_comparison_raises (l : List LatestCveEntry) : Bool :=
  !keys_comparable l

/-- `filtered_cves.sort(key=get_sort_key, reverse=True)` wrapped in the
`try/except` of lines 381-399, as a relation between the list before and
after the ordering step.  On uniform keys Python's stable sort has a unique
output — the stable descending order, realized by `List.insertionSort`.
On mixed aware/naive keys a comparison raises `TypeError` part-way through
the sort; the `except` catches it and the query continues with whatever
partially-reordered permutation the aborted `list.sort` left behind, which
CPython does not specify — the model admits every permutation of the input
as the outcome. -/
def cve_latest_sort_step (l after : List LatestCveEntry) : Prop :=
  if keys_comparable l then
    after = List.insertionSort
      (fun a b => (get_sort_key b).t ≤ (get_sort_key a).t) l
  else after.Perm l

/-! ### Trace predicates and concrete scenarios -/

/-- Recognizes the truncation notice event. -/
def isTruncationNotice : Event → Bool
  | .sendTruncationNotice _ _ => true
  | _ => false

/-- Recognizes a vulnerability or exploitation embed send. -/
def is_alert_send : Event → Bool
  | .sendCveEmbed _ _ _ => true
  | .sendKevEmbed _ _ _ => true
  | _ => false

/-- The trace starts with the fixed 1.5 second `asyncio.sleep`. -/
def next_is_delay : List Event → Bool
  | Event.sleep s :: _ => decide (s = mkRat 3 2)
  | _ => false

/-- Every alert send in the trace is immediately followed by the fixed
1.5 second `asyncio.sleep`. -/
def sends_spaced : List Event → Bool
  | [] => true
  | e :: rest => (!is_alert_send e || next_is_delay rest) && sends_spaced rest

/-- Every exploitation embed in the trace is preceded by the vulnerability
embed of the same identifier (`seen` accumulates identifiers whose
vulnerability embed was already sent). -/
def kev_preceded : List Event → List String → Bool
  | [], _ => true
  | Event.sendCveEmbed cid _ _ :: rest, seen => kev_preceded rest (cid :: seen)
  | Event.sendKevEmbed cid _ _ :: rest, seen =>
    seen.contains cid && kev_preceded rest seen
  | _ :: rest, seen => kev_preceded rest seen

/-- The identifiers whose vulnerability embed occurs in the trace, consed
onto `seen`. -/
def seen_after : List Event → List String → List String
  | [], seen => seen
  | Event.sendCveEmbed cid _ _ :: rest, seen => seen_after rest (cid :: seen)
  | _ :: rest, seen => seen_after rest seen

/-- Scenario for C7: guild 1 monitors globally with floor `high`; the
primary source returns a record scoring 3.0 for CVE-2024-0002; the
exploitation catalog holds nothing. -/
def envC7 : PipelineEnv :=
  ⟨⟨[(1, ⟨true, false, "high"⟩)], []⟩,
   fun cid => if cid = "CVE-2024-0002" then .found ⟨some 3⟩ else .notFound,
   some (fun _ => .notFound)⟩

/-- A human message in guild 1 mentioning only CVE-2024-0002. -/
def msgC7 : MessageModel := ⟨false, some 1, 42, "CVE-2024-0002"⟩

/-- Scenario for the C2 counterexample: monitoring fully open, the fetch
succeeds with score 9.0, and every exploitation-catalog lookup raises. -/
def envC2 : PipelineEnv :=
  ⟨⟨[(1, ⟨true, false, "all"⟩)], []⟩,
   fun _ => .found ⟨some 9⟩,
   some (fun _ => .raised)⟩

/-- Scenario for the C2 witness: the fetch for CVE-2024-0001 raises, other
fetches succeed with score 9.0, and every exploitation lookup raises. -/
def envC2w : PipelineEnv :=
  ⟨⟨[], []⟩,
   fun cid => if cid = "CVE-2024-0001" then .raised else .found ⟨some 9⟩,
   some (fun _ => .raised)⟩

/-- Scenario for the C3 witness: guild 1 monitors globally with floor
`all`; no record is ever found; no exploitation client. -/
def envC3 : PipelineEnv :=
  ⟨⟨[(1, ⟨true, false, "all"⟩)], []⟩, fun _ => .notFound, none⟩

/-- A human message in guild 1 mentioning seven distinct identifiers. -/
def msgC3 : MessageModel :=
  ⟨false, some 1, 9,
   "CVE-2024-0001 CVE-2024-0002 CVE-2024-0003 CVE-2024-0004 CVE-2024-0005 CVE-2024-0006 CVE-2024-0007"⟩

/-- Scenario for the C4 witness: guild 1 enabled, one channel row for
channel 5 with enabled false. -/
def envC4 : PipelineEnv :=
  ⟨⟨[(1, ⟨true, false, "all"⟩)], [(1, ⟨5, false, none, none, none⟩)]⟩,
   fun _ => .notFound, none⟩

/-- A human message sent to the disabled channel 5 of guild 1. -/
def msgC4 : MessageModel := ⟨false, some 1, 5, "CVE-2024-0001"⟩

/-! ### Scanner lemmas -/

/-- `Char.toUpper` fixes digit characters. -/
theorem toUpper_of_isDigit {c : Char} (h : c.isDigit = true) : c.toUpper = c := by
  have h2 : c.val ≤ 57 := by
    simp only [Char.isDigit, Bool.and_eq_true, decide_eq_true_eq] at h
    exact h.2
  have h3 : c.val.toNat ≤ 57 := UInt32.toNat_le_of_le (by norm_num) h2
  unfold Char.toUpper
  have h4 : ¬(Char.toNat c ≥ 97 ∧ Char.toNat c ≤ 122) := by
    unfold Char.toNat
    omega
  simp [h4]

/-- Taking as many elements as `takeWhile` keeps yields `takeWhile`. -/
theorem take_length_takeWhile (p : α → Bool) :
    ∀ l : List α, l.take (l.takeWhile p).length = l.takeWhile p := by
  intro l
  induction l with
  | nil => simp
  | cons a l ih =>
    by_cases h : p a
    · simp [List.takeWhile_cons_of_pos h, ih]
    · simp [List.takeWhile_cons_of_neg h]

/-- Upper-casing an all-digit list keeps it all-digit. -/
theorem all_isDigit_toUpper (l : List Char) (h : l.all Char.isDigit = true) :
    (l.map Char.toUpper).all Char.isDigit = true := by
  rw [List.all_map]
  rw [List.all_eq_true] at h ⊢
  intro x hx
  simp only [Function.comp_apply]
  rw [toUpper_of_isDigit (h x hx)]
  exact h x hx

/-- A successful scan match, upper-cased, satisfies the anchored validation
regex. -/
theorem matchAt_valid : ∀ (cs : List Char) (n : Nat), matchAt cs = some n →
    validate_chars ((cs.take n).map Char.toUpper) = true := by
  intro cs n h
  unfold matchAt at h
  split at h
  case h_1 c v e d1 y1 y2 y3 y4 d2 rest =>
    split at h
    case isTrue hcond =>
      split at h
      case isTrue hlen =>
        injection h with hn
        subst hn
        simp only [Bool.and_eq_true, decide_eq_true_eq] at hcond
        obtain ⟨⟨⟨⟨⟨⟨⟨⟨hc, hv⟩, he⟩, hd1⟩, hy1⟩, hy2⟩, hy3⟩, hy4⟩, hd2⟩ := hcond
        rw [Nat.add_comm]
        simp only [List.take_succ_cons, List.map_cons]
        rw [take_length_takeWhile]
        rw [validate_chars]
        subst hd1 hd2
        have hall : ((rest.takeWhile Char.isDigit).map Char.toUpper).all
            Char.isDigit = true :=
          all_isDigit_toUpper _ List.all_takeWhile
        simp only [Bool.and_eq_true, decide_eq_true_eq, List.length_map,
          hall, and_true]
        rw [hc, hv, he, toUpper_of_isDigit hy1, toUpper_of_isDigit hy2,
          toUpper_of_isDigit hy3, toUpper_of_isDigit hy4]
        refine ⟨⟨⟨⟨⟨⟨⟨⟨⟨by decide, by decide⟩, by decide⟩, by decide⟩, hy1⟩,
          hy2⟩, hy3⟩, hy4⟩, by decide⟩, hlen⟩
      case isFalse => exact absurd h (by simp)
    case isFalse => exact absurd h (by simp)
  case h_2 => exact absurd h (by simp)

/-- Every match collected by the fuelled scanner, upper-cased, passes
validation. -/
theorem scanAuxF_valid : ∀ (k : Nat) (cs : List Char),
    ∀ m ∈ scanAuxF k cs, validate_chars (m.map Char.toUpper) = true := by
  intro k
  induction k with
  | zero =>
    intro cs m hm
    simp [scanAuxF] at hm
  | succ k ih =>
    intro cs m hm
    match cs with
    | [] => simp [scanAuxF] at hm
    | c :: rest =>
      rw [scanAuxF] at hm
      cases hmatch : matchAt (c :: rest) with
      | some n =>
        rw [hmatch] at hm
        simp only [List.mem_cons] at hm
        rcases hm with rfl | hm
        · exact matchAt_valid _ _ hmatch
        · exact ih _ m hm
      | none =>
        rw [hmatch] at hm
        exact ih rest m hm

/-- Membership in the deduplicated list implies membership in the original. -/
theorem mem_of_mem_dedupFirstF : ∀ (k : Nat) (l : List String) (x : String),
    x ∈ dedupFirstF k l → x ∈ l := by
  intro k
  induction k with
  | zero =>
    intro l x hx
    simp [dedupFirstF] at hx
  | succ k ih =>
    intro l x hx
    match l with
    | [] => simp [dedupFirstF] at hx
    | y :: ys =>
      rw [dedupFirstF] at hx
      simp only [List.mem_cons] at hx ⊢
      rcases hx with rfl | hx
      · exact Or.inl rfl
      · exact Or.inr (List.mem_of_mem_filter (ih _ x hx))

/-- Every identifier in the capped, deduplicated batch passes the anchored
validation regex. -/
theorem cves_to_process_valid (content cid : String)
    (hcid : cid ∈ cves_to_process content) : validateCVE cid = true := by
  unfold cves_to_process at hcid
  have h1 : cid ∈ found_cves content := List.take_subset _ _ hcid
  unfold found_cves dedupFirst at h1
  have h2 : cid ∈ (scanAux content.toList).map
      (fun m => String.mk (m.map Char.toUpper)) :=
    mem_of_mem_dedupFirstF _ _ _ h1
  simp only [List.mem_map] at h2
  obtain ⟨m, hm, rfl⟩ := h2
  unfold validateCVE
  show validate_chars (String.toList (String.mk (List.map Char.toUpper m))) = true
  exact scanAuxF_valid _ _ m hm

/-- Claim C9: every candidate the scanner produces (an upper-cased match of
the scan regex `CVE-\d{4}-\d{4,}`) necessarily matches the anchored
validation regex `^CVE-\d{4}-\d{4,}$`, so the malformed-candidate skip
branch of the message loop is unreachable: every identifier in the
processed batch passes validation before fetch. -/
theorem scan_candidates_always_valid :
    (∀ (content : List Char) (m : List Char), m ∈ scanAux content →
        validate_chars (m.map Char.toUpper) = true)
    ∧ (∀ (content cid : String), cid ∈ cves_to_process content →
        validateCVE cid = true) :=
  ⟨fun content m hm => scanAuxF_valid content.length content m hm,
   cves_to_process_valid⟩

/-- Witness for C9 at a concrete message text. -/
theorem scan_candidates_always_valid_witness :
    ("CVE-2023-1234" ∈ cves_to_process "cve-2023-1234 junk")
    ∧ validateCVE "CVE-2023-1234" = true :=
  ⟨by decide, scan_candidates_always_valid.2 "cve-2023-1234 junk"
    "CVE-2023-1234" (by decide)⟩

/-! ### Severity gate (C1) -/

/-- Claim C1: for every floor label among critical/high/medium/low/all with
thresholds 9.0/7.0/4.0/0.1/0.0 and every optional score in the CVSS range,
a record passes the gate iff the label is `all` or the score is present and
at least the threshold; a missing score never passes under any label other
than `all`. -/
theorem severity_gate_characterization (L : String)
    (_hL : L = "critical" ∨ L = "high" ∨ L = "medium" ∨ L = "low" ∨ L = "all")
    (s : Option ℚ) (hs : ∀ x, s = some x → 0 ≤ x) :
    (severity_gate s L = true ↔
      (L = "all" ∨ ∃ x, s = some x ∧ min_score_threshold L ≤ x))
    ∧ (∀ L2 : String, L2 ≠ "all" → severity_gate none L2 = false)
    ∧ min_score_threshold "critical" = 9 ∧ min_score_threshold "high" = 7
    ∧ min_score_threshold "medium" = 4 ∧ min_score_threshold "low" = 1/10
    ∧ min_score_threshold "all" = 0 := by
  refine ⟨?_, ?_, by simp [min_score_threshold], by simp [min_score_threshold],
    by simp [min_score_threshold], by simp [min_score_threshold]; norm_num,
    by simp [min_score_threshold]⟩
  · cases s with
    | none =>
      simp only [severity_gate]
      constructor
      · intro h
        exact Or.inl (of_decide_eq_true h)
      · rintro (h | ⟨x, hx, _⟩)
        · exact decide_eq_true h
        · exact absurd hx (by simp)
    | some x =>
      simp only [severity_gate, Bool.not_eq_eq_eq_not, Bool.not_true,
        decide_eq_false_iff_not, not_lt]
      constructor
      · intro h
        exact Or.inr ⟨x, rfl, h⟩
      · rintro (h | ⟨y, hy, hle⟩)
        · subst h
          have := hs x rfl
          simpa [min_score_threshold] using this
        · cases hy
          exact hle
  · intro L2 h2
    simp [severity_gate, h2]

/-- Witness for C1: a present score 8.0 under floor `high`. -/
theorem severity_gate_characterization_witness :
    severity_gate (some 8) "high" = true ∧
    (severity_gate (some 8) "high" = true ↔
      ("high" = "all" ∨ ∃ x, (some (8 : ℚ)) = some x
        ∧ min_score_threshold "high" ≤ x)) :=
  ⟨by decide,
   (severity_gate_characterization "high" (Or.inr (Or.inl rfl)) (some 8)
     (fun x hx => by cases hx; norm_num)).1⟩

/-! ### First-touch auto-creation (C6) -/

/-- Claim C6 (code bug): the global-verbosity write paths skip first-touch
creation.  On a store with no guild row, `/verbose enable_global` and
`/verbose setall` leave the guild without any GuildPolicy row, while an
ensured write path such as `/cve threshold set` materializes the defaults
and then applies its change. -/
theorem verbose_global_skips_ensure :
    get_cve_guild_config 7 (verbose_enable_global_command 7 ⟨[], []⟩) = none
    ∧ get_cve_guild_config 7 (verbose_channel_setall_command 7 true ⟨[], []⟩) = none
    ∧ get_cve_guild_config 7 (threshold_set_command 7 "high" ⟨[], []⟩)
        = some ⟨true, false, "high"⟩
    ∧ get_cve_guild_config 7 (channels_enable_global_command 7 ⟨[], []⟩)
        = some ⟨true, false, "all"⟩
    ∧ get_cve_guild_config 7 (channels_disable_global_command 7 ⟨[], []⟩)
        = some ⟨false, false, "all"⟩
    ∧ get_cve_guild_config 7 (verbose_channel_set_command 7 5 true ⟨[], []⟩)
        = some ⟨true, false, "all"⟩ := by
  decide

/-! ### Query sort (C8) -/

/-- Claim C8 (counterexample): with a present-but-unparsable timestamp
among naive parsed ones the keys mix tz-awareness, so the comparisons of
the ordering step raise `TypeError` — contradicting "the ordering step
never raises" — and the claimed epoch-last result is not guaranteed: the
caught failure admits (and, for this three-element input, CPython
concretely produces) the original unsorted order. -/
theorem unparsable_sort_counterexample :
    sort_key_comparison_raises
      [⟨some "2024-01-01"⟩, ⟨some "not-a-date"⟩, ⟨some "2023-06-01"⟩] = true
    ∧ (get_sort_key ⟨some "not-a-date"⟩).aware = true
    ∧ (get_sort_key ⟨some "2024-01-01"⟩).aware = false
    ∧ (get_sort_key ⟨some "2023-06-01"⟩).aware = false
    ∧ cve_latest_sort_step
        [⟨some "2024-01-01"⟩, ⟨some "not-a-date"⟩, ⟨some "2023-06-01"⟩]
        [⟨some "2024-01-01"⟩, ⟨some "not-a-date"⟩, ⟨some "2023-06-01"⟩] := by
  refine ⟨by decide, by decide, by decide, by decide, ?_⟩
  unfold cve_latest_sort_step
  rw [if_neg (by decide)]

/-- Claim C8 (amended): whenever all sort keys share tz-awareness the
result is the stable descending order by publication timestamp, with a
missing timestamp keyed as the (naive) epoch and sorting oldest — the spec
example with a missing timestamp holds and has a unique outcome; a
present-but-unparsable timestamp is keyed as the aware epoch, and on a
mixed aware/naive key list the comparison error is raised inside the
ordering step and caught, the query proceeds, and the list is only
guaranteed to be some permutation of the input. -/
theorem sort_latest_behavior :
    (∀ after, cve_latest_sort_step
        [⟨some "2024-01-01"⟩, ⟨none⟩, ⟨some "2023-06-01"⟩] after →
        after = [⟨some "2024-01-01"⟩, ⟨some "2023-06-01"⟩, ⟨none⟩])
    ∧ (∀ (l after : List LatestCveEntry), keys_comparable l = true →
        cve_latest_sort_step l after →
        List.Perm after l ∧ after.Pairwise
          (fun a b => (get_sort_key b).t ≤ (get_sort_key a).t))
    ∧ (∀ (l after : List LatestCveEntry), keys_comparable l = false →
        cve_latest_sort_step l after → List.Perm after l)
    ∧ (∀ l : List LatestCveEntry, ∃ after, cve_latest_sort_step l after) := by
  refine ⟨?_, ?_, ?_, ?_⟩
  · intro after h
    unfold cve_latest_sort_step at h
    rw [if_pos (by decide)] at h
    rw [h]
    decide
  · intro l after hcomp hstep
    unfold cve_latest_sort_step at hstep
    rw [if_pos hcomp] at hstep
    rw [hstep]
    constructor
    · exact List.perm_insertionSort _ l
    · haveI ht : IsTotal LatestCveEntry
          (fun a b => (get_sort_key b).t ≤ (get_sort_key a).t) :=
        ⟨fun a b => le_total _ _⟩
      haveI htr : IsTrans LatestCveEntry
          (fun a b => (get_sort_key b).t ≤ (get_sort_key a).t) :=
        ⟨fun _ _ _ h1 h2 => le_trans h2 h1⟩
      exact List.sorted_insertionSort _ l
  · intro l after hcomp hstep
    unfold cve_latest_sort_step at hstep
    rw [if_neg (by rw [hcomp]; exact Bool.false_ne_true)] at hstep
    exact hstep
  · intro l
    by_cases hcomp : keys_comparable l = true
    · exact ⟨_, by unfold cve_latest_sort_step; rw [if_pos hcomp]⟩
    · exact ⟨l, by
        unfold cve_latest_sort_step
        rw [if_neg hcomp]⟩

/-- Witness for C8: a comparable pair is sorted descending, and for a mixed
pair a nontrivial permutation is an admitted outcome. -/
theorem sort_latest_behavior_witness :
    (List.Perm [(⟨some "2024-01-01"⟩ : LatestCveEntry), ⟨some "2023-06-01"⟩]
        [⟨some "2023-06-01"⟩, ⟨some "2024-01-01"⟩]
      ∧ List.Pairwise (fun a b => (get_sort_key b).t ≤ (get_sort_key a).t)
          [(⟨some "2024-01-01"⟩ : LatestCveEntry), ⟨some "2023-06-01"⟩])
    ∧ List.Perm [(⟨some "not-a-date"⟩ : LatestCveEntry), ⟨some "2024-01-01"⟩]
        [⟨some "2024-01-01"⟩, ⟨some "not-a-date"⟩] :=
  ⟨sort_latest_behavior.2.1 [⟨some "2023-06-01"⟩, ⟨some "2024-01-01"⟩]
      [⟨some "2024-01-01"⟩, ⟨some "2023-06-01"⟩] (by decide)
      (by unfold cve_latest_sort_step
          rw [if_pos (by decide)]
          decide),
   sort_latest_behavior.2.2.1 [⟨some "2024-01-01"⟩, ⟨some "not-a-date"⟩]
      [⟨some "not-a-date"⟩, ⟨some "2024-01-01"⟩] (by decide)
      (by unfold cve_latest_sort_step
          rw [if_neg (by decide)]
          exact List.Perm.swap (⟨some "2024-01-01"⟩ : LatestCveEntry)
            (⟨some "not-a-date"⟩ : LatestCveEntry) [])⟩

/-! ### Gated-out record counters (C7) -/

/-- Claim C7: a message with one valid identifier whose fetch succeeds with
score 3.0 under floor `high` emits nothing, increments the lookup and
success counters by one each, and leaves the error counter unchanged
(gating happens after the successful fetch). -/
theorem gated_out_counters (st : Counters) :
    on_message envC7 msgC7 st
      = (⟨st.stats_cve_lookups + 1, st.stats_nvd_fallback_success + 1,
          st.stats_api_errors_nvd⟩, []) := by
  cases st
  rfl

/-! ### Partial failure (C2) -/

/-- Claim C2 (counterexample): an enrichment (exploitation-catalog) error
for a processed identifier is caught — the vulnerability embed is still
sent — but the error counter is NOT incremented. -/
theorem kev_error_not_counted_counterexample :
    (on_message envC2 ⟨false, some 1, 9, "CVE-2024-0001"⟩ ⟨0, 0, 0⟩).1.stats_api_errors_nvd = 0
    ∧ (on_message envC2 ⟨false, some 1, 9, "CVE-2024-0001"⟩ ⟨0, 0, 0⟩).2
        = [Event.sendCveEmbed "CVE-2024-0001" ⟨some 9⟩ false, Event.sleep (mkRat 3 2)] := by
  decide

/-- Claim C2 (amended): per-identifier failures are caught and never abort
the rest of the batch; a primary-fetch failure increments the error
counter; an enrichment (exploitation-catalog) failure degrades to
not-exploited — the vulnerability embed is still sent — but does not
increment the error counter. -/
theorem partial_failure_isolated (env : PipelineEnv) (chan g : Nat)
    (lbl : String) (st : Counters) (evs : List Event) (cid : String)
    (rest : List String) (hv : validateCVE cid = true) :
    (env.nvd cid = FetchOutcome.raised →
      run_batch env chan g lbl (st, evs) (cid :: rest)
        = run_batch env chan g lbl
            (⟨st.stats_cve_lookups + 1, st.stats_nvd_fallback_success,
              st.stats_api_errors_nvd + 1⟩, evs) rest)
    ∧ (∀ (d : CveDetails) (kf : String → KevOutcome),
        env.nvd cid = FetchOutcome.found d →
        severity_gate d.cvss lbl = true →
        env.cisa_kev_client = some kf →
        kf cid = KevOutcome.raised →
        run_batch env chan g lbl (st, evs) (cid :: rest)
          = run_batch env chan g lbl
              (⟨st.stats_cve_lookups + 1, st.stats_nvd_fallback_success + 1,
                st.stats_api_errors_nvd⟩,
               evs ++ [Event.sendCveEmbed cid d (get_effective_verbosity env.db g chan),
                       Event.sleep (mkRat 3 2)]) rest) := by
  constructor
  · intro hraised
    show run_batch env chan g lbl
        (let r := process_message_cve env chan g lbl st cid; (r.1, evs ++ r.2)) rest = _
    unfold process_message_cve
    rw [hv, hraised]
    simp
  · intro d kf hfound hgate hkev hkevraised
    show run_batch env chan g lbl
        (let r := process_message_cve env chan g lbl st cid; (r.1, evs ++ r.2)) rest = _
    unfold process_message_cve
    rw [hv, hfound]
    simp [hgate, hkev, hkevraised]

/-- Witness for C2: a two-identifier batch where the first fetch raises
(counted, batch continues) and the second identifier's exploitation lookup
raises (not counted, embed still emitted). -/
theorem partial_failure_isolated_witness :
    (run_batch envC2w 9 1 "all" (⟨0, 0, 0⟩, []) ["CVE-2024-0001", "CVE-2024-0002"]
       = run_batch envC2w 9 1 "all" (⟨1, 0, 1⟩, []) ["CVE-2024-0002"])
    ∧ (run_batch envC2w 9 1 "all" (⟨1, 0, 1⟩, []) ["CVE-2024-0002"]
       = run_batch envC2w 9 1 "all" (⟨2, 1, 1⟩,
           [Event.sendCveEmbed "CVE-2024-0002" ⟨some 9⟩
              (get_effective_verbosity envC2w.db 1 9),
            Event.sleep (mkRat 3 2)]) []) :=
  ⟨(partial_failure_isolated envC2w 9 1 "all" ⟨0, 0, 0⟩ [] "CVE-2024-0001"
      ["CVE-2024-0002"] (by decide)).1 rfl,
   (partial_failure_isolated envC2w 9 1 "all" ⟨1, 0, 1⟩ [] "CVE-2024-0002"
      [] (by decide)).2 ⟨some 9⟩ (fun _ => KevOutcome.raised) rfl (by decide)
      rfl rfl⟩

/-! ### Allow-list semantics (C4) -/

/-- Claim C4: with monitoring enabled, zero ChannelPolicy rows means every
destination is monitored; with at least one row the destination must appear
among the rows with `enabled = true`, and otherwise the message is silently
rejected — the counters and emissions are untouched, so no other
destination's monitoring is affected. -/
theorem allow_list_semantics :
    (∀ (configs : List ChannelConfig) (chan : Nat),
      channel_allowed configs chan = true ↔
        (configs = [] ∨ ∃ conf ∈ configs, conf.channel_id = chan
          ∧ conf.enabled = true))
    ∧ (∀ (env : PipelineEnv) (msg : MessageModel) (g : Nat) (st : Counters),
        msg.guild_id = some g →
        channel_allowed (get_all_cve_channel_configs_for_guild g env.db)
          msg.channel_id = false →
        on_message env msg st = (st, [])) := by
  constructor
  · intro configs chan
    unfold channel_allowed
    simp [List.isEmpty_iff, List.any_eq_true]
  · intro env msg g st hg hal
    unfold on_message
    rw [hg]
    by_cases hbot : msg.author_is_bot
    · simp [hbot]
    · simp only [hbot, Bool.false_eq_true, if_false]
      by_cases hc : msg.content = ""
      · simp [hc]
      · simp only [hc, if_false]
        cases hgc : get_cve_guild_config g env.db with
        | none => rfl
        | some gc =>
          by_cases hen : gc.cve_monitoring_enabled
          · simp only [hen, Bool.not_true, Bool.false_eq_true, if_false]
            rw [hal]
            rfl
          · simp [hen]

/-- Witness for C4: an empty row set monitors everything, and a message to
a disabled destination is a silent no-op. -/
theorem allow_list_semantics_witness :
    channel_allowed [] 3 = true
    ∧ on_message envC4 msgC4 ⟨0, 0, 0⟩ = (⟨0, 0, 0⟩, []) :=
  ⟨(allow_list_semantics.1 [] 3).mpr (Or.inl rfl),
   allow_list_semantics.2 envC4 msgC4 1 ⟨0, 0, 0⟩ rfl (by decide)⟩

/-! ### Add-channel side effect (C10) -/

/-- `find?` over a conditionally updated list, when the update preserves the
predicate. -/
theorem find?_map_update {α : Type} (q : α → Bool) (f : α → α)
    (hf : ∀ p, q (f p) = q p) (l : List α) :
    (l.map (fun p => if q p then f p else p)).find? q = (l.find? q).map f := by
  induction l with
  | nil => rfl
  | cons p l ih =>
    by_cases h : q p
    · rw [List.map_cons, if_pos h, List.find?_cons_of_pos _ (by rw [hf]; exact h),
        List.find?_cons_of_pos _ h]
      rfl
    · rw [List.map_cons, if_neg h,
        List.find?_cons_of_neg _ (by simpa using h),
        List.find?_cons_of_neg _ (by simpa using h), ih]

/-- Reading the guild row after `update_cve_guild_enabled`. -/
theorem get_guild_after_update_enabled (g : Nat) (b : Bool) (db : DBState) :
    get_cve_guild_config g (update_cve_guild_enabled g b db)
      = (get_cve_guild_config g db).map
          (fun c => { c with cve_monitoring_enabled := b }) := by
  unfold get_cve_guild_config update_cve_guild_enabled
  rw [show (fun p : Nat × GuildConfig =>
      if p.1 = g then (p.1, { p.2 with cve_monitoring_enabled := b }) else p)
    = (fun p : Nat × GuildConfig =>
      if (fun p : Nat × GuildConfig => decide (p.1 = g)) p = true then
        (p.1, { p.2 with cve_monitoring_enabled := b }) else p) from by
    funext p
    simp]
  rw [find?_map_update (fun p : Nat × GuildConfig => decide (p.1 = g))
    (fun p => (p.1, { p.2 with cve_monitoring_enabled := b })) (fun p => by simp)]
  cases db.guild_configs.find? (fun p => decide (p.1 = g)) <;> rfl

/-- The channel upsert leaves the guild rows untouched. -/
theorem get_guild_after_channel_upsert (g g2 chan : Nat) (en : Bool)
    (vm : Option Bool) (thr fmt : Option String) (db : DBState) :
    get_cve_guild_config g2 (add_or_update_cve_channel g chan en vm thr fmt db)
      = get_cve_guild_config g2 db := by
  unfold get_cve_guild_config add_or_update_cve_channel
  split <;> rfl

/-- After the channel upsert, the (guild, channel) row exists and carries
the requested enablement. -/
theorem get_channel_after_upsert (g chan : Nat) (en : Bool) (vm : Option Bool)
    (thr fmt : Option String) (db : DBState) :
    ∃ row, get_cve_channel_config g chan
        (add_or_update_cve_channel g chan en vm thr fmt db) = some row
      ∧ row.enabled = en := by
  unfold get_cve_channel_config add_or_update_cve_channel
  split
  case isTrue hsome =>
    rw [show (fun p : Nat × ChannelConfig =>
        if p.1 = g && p.2.channel_id = chan then
          (p.1, { p.2 with
                  enabled := en,
                  verbose_mode := match vm with
                    | some v => some v
                    | none => p.2.verbose_mode,
                  severity_threshold := match thr with
                    | some t => some t
                    | none => p.2.severity_threshold,
                  alert_format := match fmt with
                    | some f => some f
                    | none => p.2.alert_format })
        else p)
      = (fun p : Nat × ChannelConfig =>
        if (fun p : Nat × ChannelConfig =>
            decide (p.1 = g) && decide (p.2.channel_id = chan)) p = true then
          (p.1, { p.2 with
                  enabled := en,
                  verbose_mode := match vm with
                    | some v => some v
                    | none => p.2.verbose_mode,
                  severity_threshold := match thr with
                    | some t => some t
                    | none => p.2.severity_threshold,
                  alert_format := match fmt with
                    | some f => some f
                    | none => p.2.alert_format })
        else p) from rfl]
    rw [find?_map_update _ _ (fun p => by simp)]
    rw [Option.isSome_iff_exists] at hsome
    obtain ⟨row, hrow⟩ := hsome
    rw [hrow]
    exact ⟨_, rfl, rfl⟩
  case isFalse hnone =>
    rw [List.find?_append]
    rw [Option.not_isSome_iff_eq_none] at hnone
    rw [hnone]
    simp

/-- Claim C10: adding a channel when the guild's global monitoring flag is
off also flips that flag on, in addition to upserting the channel row as
enabled. -/
theorem channels_add_enables_monitoring (db : DBState) (g chan : Nat)
    (cfg : GuildConfig) (h1 : get_cve_guild_config g db = some cfg)
    (h2 : cfg.cve_monitoring_enabled = false) :
    (∃ cfg2, get_cve_guild_config g (channels_add_command g chan db) = some cfg2
       ∧ cfg2.cve_monitoring_enabled = true)
    ∧ (∃ row, get_cve_channel_config g chan (channels_add_command g chan db)
         = some row ∧ row.enabled = true) := by
  unfold channels_add_command
  have hens : ensure_guild_config g db = db := by
    unfold ensure_guild_config
    rw [h1]
  rw [hens]
  dsimp only
  rw [h1]
  dsimp only
  rw [h2]
  simp only [Bool.false_eq_true, if_false]
  constructor
  · rw [get_guild_after_channel_upsert, get_guild_after_update_enabled, h1]
    exact ⟨_, rfl, rfl⟩
  · exact get_channel_after_upsert g chan true none none none _

/-- Witness for C10: guild 1 starts with monitoring disabled; adding
channel 5 enables the global flag and the channel row. -/
theorem channels_add_enables_monitoring_witness :
    (∃ cfg2, get_cve_guild_config 1
        (channels_add_command 1 5 ⟨[(1, ⟨false, true, "high"⟩)], []⟩) = some cfg2
      ∧ cfg2.cve_monitoring_enabled = true)
    ∧ (∃ row, get_cve_channel_config 1 5
        (channels_add_command 1 5 ⟨[(1, ⟨false, true, "high"⟩)], []⟩) = some row
      ∧ row.enabled = true) :=
  channels_add_enables_monitoring ⟨[(1, ⟨false, true, "high"⟩)], []⟩ 1 5
    ⟨false, true, "high"⟩ (by decide) rfl

/-! ### Emission shape of the per-identifier loop (C5, C3) -/

/-- The events one identifier emits form one of three blocks: nothing, a
vulnerability embed plus its delay, or that followed by the exploitation
embed plus its delay. -/
theorem process_block_cases (env : PipelineEnv) (chan g : Nat) (lbl : String)
    (st : Counters) (cid : String) :
    (process_message_cve env chan g lbl st cid).2 = []
    ∨ (∃ d v, (process_message_cve env chan g lbl st cid).2
        = [Event.sendCveEmbed cid d v, Event.sleep (mkRat 3 2)])
    ∨ (∃ d k v, (process_message_cve env chan g lbl st cid).2
        = [Event.sendCveEmbed cid d v, Event.sleep (mkRat 3 2),
           Event.sendKevEmbed cid k v, Event.sleep (mkRat 3 2)]) := by
  unfold process_message_cve
  by_cases hv : validateCVE cid = true
  · simp only [hv, Bool.not_true, Bool.false_eq_true, if_false]
    cases hf : env.nvd cid with
    | raised => exact Or.inl rfl
    | notFound => exact Or.inl rfl
    | found d =>
      by_cases hgate : severity_gate d.cvss lbl = true
      · simp only [hgate, Bool.not_true, Bool.false_eq_true, if_false]
        cases hk : env.cisa_kev_client with
        | none => exact Or.inr (Or.inl ⟨d, _, rfl⟩)
        | some kf =>
          dsimp only
          cases hkf : kf cid with
          | entry k => exact Or.inr (Or.inr ⟨d, k, _, rfl⟩)
          | notFound => exact Or.inr (Or.inl ⟨d, _, rfl⟩)
          | raised => exact Or.inr (Or.inl ⟨d, _, rfl⟩)
      · rw [Bool.not_eq_true] at hgate
        simp only [hgate, Bool.not_false, if_true]
        exact Or.inl (by simp)
  · rw [Bool.not_eq_true] at hv
    simp only [hv, Bool.not_false, if_true]
    exact Or.inl (by simp)

/-- Processing a valid identifier always increments the lookup counter by
exactly one. -/
theorem process_lookups (env : PipelineEnv) (chan g : Nat) (lbl : String)
    (st : Counters) (cid : String) (hv : validateCVE cid = true) :
    (process_message_cve env chan g lbl st cid).1.stats_cve_lookups
      = st.stats_cve_lookups + 1 := by
  unfold process_message_cve
  simp only [hv, Bool.not_true, Bool.false_eq_true, if_false]
  cases env.nvd cid with
  | raised => rfl
  | notFound => rfl
  | found d =>
    by_cases hgate : severity_gate d.cvss lbl = true
    · simp only [hgate, Bool.not_true, Bool.false_eq_true, if_false]
      cases env.cisa_kev_client with
      | none => rfl
      | some kf =>
        dsimp only
        cases kf cid <;> rfl
    · rw [Bool.not_eq_true] at hgate
      simp only [hgate, Bool.not_false, if_true]

/-- A per-identifier block contains no truncation notice. -/
theorem process_block_trunc_free (env : PipelineEnv) (chan g : Nat)
    (lbl : String) (st : Counters) (cid : String) :
    ((process_message_cve env chan g lbl st cid).2).countP isTruncationNotice
      = 0 := by
  rcases process_block_cases env chan g lbl st cid with
    h | ⟨d, v, h⟩ | ⟨d, k, v, h⟩ <;>
  simp [h, List.countP_cons, isTruncationNotice]

/-- The batch loop emits no truncation notices. -/
theorem run_batch_trunc_free (env : PipelineEnv) (chan g : Nat) (lbl : String) :
    ∀ (ids : List String) (st : Counters) (evs : List Event),
    (run_batch env chan g lbl (st, evs) ids).2.countP isTruncationNotice
      = evs.countP isTruncationNotice := by
  intro ids
  induction ids with
  | nil => intro st evs; rfl
  | cons cid rest ih =>
    intro st evs
    unfold run_batch
    rw [List.foldl_cons]
    show (run_batch env chan g lbl _ rest).2.countP isTruncationNotice = _
    rw [ih]
    rw [List.countP_append, process_block_trunc_free]
    simp

/-- The batch loop over valid identifiers increments the lookup counter by
the batch size. -/
theorem run_batch_lookups (env : PipelineEnv) (chan g : Nat) (lbl : String) :
    ∀ (ids : List String) (st : Counters) (evs : List Event),
    (∀ cid ∈ ids, validateCVE cid = true) →
    (run_batch env chan g lbl (st, evs) ids).1.stats_cve_lookups
      = st.stats_cve_lookups + ids.length := by
  intro ids
  induction ids with
  | nil => intro st evs _; simp [run_batch]
  | cons cid rest ih =>
    intro st evs hval
    unfold run_batch
    rw [List.foldl_cons]
    show (run_batch env chan g lbl _ rest).1.stats_cve_lookups = _
    rw [ih _ _ (fun c hc => hval c (List.mem_cons_of_mem _ hc))]
    rw [process_lookups env chan g lbl st cid (hval cid (List.mem_cons_self cid rest))]
    simp [List.length_cons]
    omega

/-- Appending to a well-spaced trace that does not end in an alert send
preserves well-spacing. -/
theorem sends_spaced_append (l1 l2 : List Event)
    (h1 : sends_spaced l1 = true)
    (hlast : ∀ e, l1.getLast? = some e → is_alert_send e = false)
    (h2 : sends_spaced l2 = true) :
    sends_spaced (l1 ++ l2) = true := by
  induction l1 with
  | nil => simpa using h2
  | cons e rest ih =>
    have hlast2 : ∀ x, rest.getLast? = some x → is_alert_send x = false := by
      intro x hx
      apply hlast
      cases rest with
      | nil => simp at hx
      | cons f r2 => rw [List.getLast?_cons_cons]; exact hx
    rw [sends_spaced, Bool.and_eq_true] at h1
    rw [List.cons_append, sends_spaced, Bool.and_eq_true]
    refine ⟨?_, ih h1.2 hlast2⟩
    cases rest with
    | nil =>
      have halert := hlast e (by simp)
      simp [halert]
    | cons f r2 =>
      have hdelay : next_is_delay ((f :: r2) ++ l2) = next_is_delay (f :: r2) := by
        cases f <;> rfl
      rw [hdelay]
      exact h1.1

/-- `kev_preceded` over an append splits into the two halves, the second
evaluated with the identifiers seen in the first. -/
theorem kev_preceded_append : ∀ (l1 l2 : List Event) (s : List String),
    kev_preceded (l1 ++ l2) s
      = (kev_preceded l1 s && kev_preceded l2 (seen_after l1 s)) := by
  intro l1
  induction l1 with
  | nil => intro l2 s; simp [kev_preceded, seen_after]
  | cons e rest ih =>
    intro l2 s
    cases e with
    | sendCveEmbed cid d v =>
      simp only [List.cons_append, kev_preceded, seen_after, List.append_eq, ih]
    | sendKevEmbed cid k v =>
      simp only [List.cons_append, kev_preceded, seen_after, List.append_eq, ih, Bool.and_assoc]
    | sleep q =>
      simp only [List.cons_append, kev_preceded, seen_after, List.append_eq, ih]
    | sendTruncationNotice a b =>
      simp only [List.cons_append, kev_preceded, seen_after, List.append_eq, ih]

/-- The three per-identifier block shapes are well-spaced, end in a sleep,
and contain their own vulnerability embed before any exploitation embed. -/
theorem process_block_props (env : PipelineEnv) (chan g : Nat) (lbl : String)
    (st : Counters) (cid : String) :
    sends_spaced (process_message_cve env chan g lbl st cid).2 = true
    ∧ (∀ e, (process_message_cve env chan g lbl st cid).2.getLast? = some e →
        is_alert_send e = false)
    ∧ (∀ s, kev_preceded (process_message_cve env chan g lbl st cid).2 s = true) := by
  rcases process_block_cases env chan g lbl st cid with
    h | ⟨d, v, h⟩ | ⟨d, k, v, h⟩ <;> rw [h]
  · exact ⟨rfl, by simp, fun s => rfl⟩
  · refine ⟨by simp [sends_spaced, next_is_delay, is_alert_send], ?_, ?_⟩
    · intro e he
      simp only [List.getLast?_cons_cons, List.getLast?_singleton,
        Option.some_inj] at he
      rw [← he]
      rfl
    · intro s
      rfl
  · refine ⟨by simp [sends_spaced, next_is_delay, is_alert_send], ?_, ?_⟩
    · intro e he
      simp only [List.getLast?_cons_cons, List.getLast?_singleton,
        Option.some_inj] at he
      rw [← he]
      rfl
    · intro s
      show kev_preceded
        [Event.sendKevEmbed cid k v, Event.sleep (mkRat 3 2)] (cid :: s) = true
      rw [kev_preceded]
      simp [List.contains_cons]
      rfl

/-- The batch loop preserves well-spacing, sleep-termination and the
vulnerability-before-exploitation order of the trace. -/
theorem run_batch_events_ok (env : PipelineEnv) (chan g : Nat) (lbl : String) :
    ∀ (ids : List String) (st : Counters) (evs : List Event),
    sends_spaced evs = true →
    (∀ e, evs.getLast? = some e → is_alert_send e = false) →
    (∀ s, kev_preceded evs s = true) →
    sends_spaced (run_batch env chan g lbl (st, evs) ids).2 = true
    ∧ (∀ e, (run_batch env chan g lbl (st, evs) ids).2.getLast? = some e →
        is_alert_send e = false)
    ∧ (∀ s, kev_preceded (run_batch env chan g lbl (st, evs) ids).2 s = true) := by
  intro ids
  induction ids with
  | nil => intro st evs h1 h2 h3; exact ⟨h1, h2, h3⟩
  | cons cid rest ih =>
    intro st evs h1 h2 h3
    unfold run_batch
    rw [List.foldl_cons]
    show sends_spaced (run_batch env chan g lbl _ rest).2 = true ∧ _
    obtain ⟨b1, b2, b3⟩ := process_block_props env chan g lbl st cid
    apply ih
    · exact sends_spaced_append _ _ h1 h2 b1
    · intro e he
      rw [List.getLast?_append] at he
      cases hb : (process_message_cve env chan g lbl st cid).2.getLast? with
      | some x =>
        rw [hb] at he
        simp only [Option.or_some, Option.some_inj] at he
        rw [← he]
        exact b2 x hb
      | none =>
        rw [hb] at he
        simp only [Option.none_or] at he
        exact h2 e he
    · intro s
      rw [kev_preceded_append, h3 s, b3 (seen_after evs s)]
      rfl

/-- Claim C5: in every trace `on_message` produces, each vulnerability or
exploitation embed is immediately followed by the fixed 1.5 second delay —
including between successive identifiers of the batch — and each
exploitation embed is preceded by the vulnerability embed of the same
identifier. -/
theorem emission_order_rate_delay (env : PipelineEnv) (msg : MessageModel)
    (st : Counters) :
    sends_spaced (on_message env msg st).2 = true
    ∧ kev_preceded (on_message env msg st).2 [] = true := by
  unfold on_message
  split
  · exact ⟨rfl, rfl⟩
  split
  · exact ⟨rfl, rfl⟩
  next gval _ =>
    split
    · exact ⟨rfl, rfl⟩
    split
    · exact ⟨rfl, rfl⟩
    next gcfg _ =>
      split
      · exact ⟨rfl, rfl⟩
      dsimp only
      split
      · exact ⟨rfl, rfl⟩
      split
      · exact ⟨rfl, rfl⟩
      obtain ⟨r1, r2, r3⟩ := run_batch_events_ok env msg.channel_id gval
        gcfg.cve_severity_threshold
        ((found_cves msg.content).take MAX_CVES_PER_MESSAGE) st [] rfl
        (by simp) (fun s => rfl)
      split
      · constructor
        · exact sends_spaced_append _ _ r1 r2 rfl
        · rw [kev_preceded_append, r3 []]
          rfl
      · exact ⟨r1, r3 []⟩

/-- Claim C3: when a message mentions more than 5 distinct valid
identifiers, exactly 5 are processed (the batch has length 5 and the lookup
counter rises by exactly 5), and exactly one truncation notice is sent for
the whole message, reporting the original distinct count against the cap. -/
theorem cap_truncation_notice (env : PipelineEnv) (msg : MessageModel)
    (g : Nat) (gc : GuildConfig) (st : Counters)
    (hbot : msg.author_is_bot = false)
    (hg : msg.guild_id = some g)
    (hcontent : ¬msg.content = "")
    (hgc : get_cve_guild_config g env.db = some gc)
    (hen : gc.cve_monitoring_enabled = true)
    (hallow : channel_allowed (get_all_cve_channel_configs_for_guild g env.db)
        msg.channel_id = true)
    (hcap : MAX_CVES_PER_MESSAGE < (found_cves msg.content).length) :
    (cves_to_process msg.content).length = 5
    ∧ (on_message env msg st).2.countP isTruncationNotice = 1
    ∧ Event.sendTruncationNotice (found_cves msg.content).length
        MAX_CVES_PER_MESSAGE ∈ (on_message env msg st).2
    ∧ (on_message env msg st).1.stats_cve_lookups = st.stats_cve_lookups + 5 := by
  have hcap5 : 5 ≤ (found_cves msg.content).length := by
    have : MAX_CVES_PER_MESSAGE = 5 := rfl
    omega
  have hlen5 : ((found_cves msg.content).take MAX_CVES_PER_MESSAGE).length = 5 := by
    rw [List.length_take]
    show min 5 _ = 5
    omega
  have hne : ¬(((found_cves msg.content).take MAX_CVES_PER_MESSAGE).isEmpty = true) := by
    intro h
    rw [List.isEmpty_iff] at h
    rw [h] at hlen5
    simp at hlen5
  have hmain : on_message env msg st
      = ((run_batch env msg.channel_id g gc.cve_severity_threshold (st, [])
            ((found_cves msg.content).take MAX_CVES_PER_MESSAGE)).1,
         (run_batch env msg.channel_id g gc.cve_severity_threshold (st, [])
            ((found_cves msg.content).take MAX_CVES_PER_MESSAGE)).2
           ++ [Event.sendTruncationNotice (found_cves msg.content).length
                MAX_CVES_PER_MESSAGE]) := by
    unfold on_message
    rw [hbot]
    simp only [Bool.false_eq_true, if_false]
    rw [hg]
    try dsimp only
    rw [if_neg hcontent, hgc]
    try dsimp only
    rw [hen]
    simp only [Bool.not_true, Bool.false_eq_true, if_false]
    rw [hallow]
    simp only [Bool.not_true, Bool.false_eq_true, if_false]
    try dsimp only
    rw [if_neg hne, if_pos hcap]
  have hvalid : ∀ cid ∈ (found_cves msg.content).take MAX_CVES_PER_MESSAGE,
      validateCVE cid = true := by
    intro cid hc
    exact cves_to_process_valid msg.content cid hc
  refine ⟨hlen5, ?_, ?_, ?_⟩
  · rw [hmain]
    simp only [List.countP_append]
    rw [run_batch_trunc_free]
    simp [isTruncationNotice, List.countP_cons]
  · rw [hmain]
    exact List.mem_append_right _ (by simp)
  · rw [hmain]
    show (run_batch env msg.channel_id g gc.cve_severity_threshold (st, [])
        ((found_cves msg.content).take MAX_CVES_PER_MESSAGE)).1.stats_cve_lookups
      = st.stats_cve_lookups + 5
    rw [run_batch_lookups env msg.channel_id g gc.cve_severity_threshold _ st []
      hvalid, hlen5]

/-- Witness for C3: seven distinct identifiers in one message. -/
theorem cap_truncation_notice_witness :
    (cves_to_process msgC3.content).length = 5
    ∧ (on_message envC3 msgC3 ⟨0, 0, 0⟩).2.countP isTruncationNotice = 1
    ∧ Event.sendTruncationNotice (found_cves msgC3.content).length
        MAX_CVES_PER_MESSAGE ∈ (on_message envC3 msgC3 ⟨0, 0, 0⟩).2
    ∧ (on_message envC3 msgC3 ⟨0, 0, 0⟩).1.stats_cve_lookups = 0 + 5 :=
  cap_truncation_notice envC3 msgC3 1 ⟨true, false, "all"⟩ ⟨0, 0, 0⟩ rfl rfl
    (by decide) rfl rfl (by decide) (by decide)
